import Mathlib

/-!
# Verification of the JoPACC Open-Finance aggregation client

Shallow embedding of the aggregation client (`JoPACCAPIService` in the
repository's integration file): account listing, per-account balance
enrichment, FX rates/quotes with account verification, together with the
per-call header construction.  Python dict/JSON values are modelled by
`JValue`, HTTP responses by an environment `Env` mapping each partner
endpoint to a response, per-call randomness (`uuid.uuid4()`) by an
explicit generator `gen : Nat → String` threaded through a counter, and
Python `float` arithmetic by exact rationals rounded to IEEE-754 binary64
precision (`fl53`).
-/

namespace FinJO

/-- A Python/JSON value: `None`, booleans, numbers, strings, lists and
(string-keyed, insertion-ordered) dicts. -/
inductive JValue where
  | null : JValue
  | bool (b : Bool) : JValue
  | num (q : Rat) : JValue
  | str (s : String) : JValue
  | arr (xs : List JValue) : JValue
  | obj (fs : List (String × JValue)) : JValue

instance : Inhabited JValue := ⟨.null⟩

/-- First value bound to `key`, if any (Python dict lookup). -/
def lookupKey : List (String × JValue) → String → Option JValue
  | [], _ => none
  | (k, v) :: rest, key => if k = key then some v else lookupKey rest key

/-- Python `d.get(key)` restricted to objects: `none` when the key is
absent or the value is not a dict. -/
def JValue.pyGetOpt : JValue → String → Option JValue
  | .obj fs, k => lookupKey fs k
  | _, _ => none

/-- Python `d.get(key)` (absent key gives `None`). -/
def JValue.pyGet (j : JValue) (k : String) : JValue := (j.pyGetOpt k).getD .null

/-- Python `d.get(key, default)`. -/
def JValue.pyGetD (j : JValue) (k : String) (d : JValue) : JValue := (j.pyGetOpt k).getD d

/-- Python `key in d`. -/
def JValue.hasKey (j : JValue) (k : String) : Bool := (j.pyGetOpt k).isSome

/-- Python truthiness of a value. -/
def JValue.truthy : JValue → Bool
  | .null => false
  | .bool b => b
  | .num q => q != 0
  | .str s => s != ""
  | .arr xs => !xs.isEmpty
  | .obj fs => !fs.isEmpty

/-- Insert-or-overwrite for a Python dict: an existing key keeps its
position and gets the new value, a new key is appended. -/
def setPair : List (String × JValue) → String → JValue → List (String × JValue)
  | [], k, v => [(k, v)]
  | (k', v') :: rest, k, v =>
    if k' = k then (k, v) :: rest else (k', v') :: setPair rest k v

/-- `\x7b**d, k: v\x7d` on an object; identity elsewhere (the client only
spreads values that are dicts). -/
def JValue.setKey : JValue → String → JValue → JValue
  | .obj fs, k, v => .obj (setPair fs k v)
  | j, _, _ => j

/-- Iterated `setKey`, in order. -/
def JValue.setKeys (j : JValue) : List (String × JValue) → JValue
  | [] => j
  | (k, v) :: rest => (j.setKey k v).setKeys rest

/-- Python iteration over a value that is expected to be a list. -/
def JValue.asArr : JValue → List JValue
  | .arr xs => xs
  | _ => []

/-- Python `v == s` for a string literal `s`: true exactly when `v` is the
same string (comparison of a non-string against a string is `False`). -/
def JValue.eqStr (j : JValue) (s : String) : Bool :=
  match j with
  | .str t => t == s
  | _ => false

/-! ## IEEE-754 binary64 arithmetic over exact rationals

The client computes `amount * rate` on Python `float`s.  We model a
(positive, normal-range) double by the rational it denotes, and rounding
to nearest/ties-to-even with 53 bits of precision by `fl53`. -/

/-- `2 ^ e` as a rational, for an integer exponent. -/
def pow2 (e : Int) : Rat :=
  if 0 ≤ e then ((2 : Rat) ^ e.toNat) else 1 / ((2 : Rat) ^ (-e).toNat)

/-- Binary exponent search: returns `e` with `2 ^ e ≤ q < 2 ^ (e+1)` for
positive `q` within the fuel bound. -/
def ratExp2Aux : Nat → Rat → Int → Int
  | 0, _, e => e
  | fuel + 1, q, e =>
    if q < 1 then ratExp2Aux fuel (q * 2) (e - 1)
    else if 2 ≤ q then ratExp2Aux fuel (q / 2) (e + 1)
    else e

/-- Binary exponent of a positive rational. -/
def ratExp2 (q : Rat) : Int := ratExp2Aux 8192 q 0

/-- Round to the nearest integer, ties to even. -/
def roundHalfEven (q : Rat) : Int :=
  let f := ⌊q⌋
  let r := q - (f : Rat)
  if r < 1 / 2 then f
  else if 1 / 2 < r then f + 1
  else if f % 2 = 0 then f else f + 1

/-- Round a positive rational to 53 significant bits. -/
def fl53pos (q : Rat) : Rat :=
  let e := ratExp2 q
  (roundHalfEven (q * pow2 (52 - e)) : Rat) * pow2 (e - 52)

/-- Round a rational to the nearest IEEE-754 binary64 value (normal
range; ties to even). -/
def fl53 (q : Rat) : Rat :=
  if q = 0 then 0
  else if q < 0 then -(fl53pos (-q))
  else fl53pos q

/-- Python `float` multiplication: exact product, rounded to binary64. -/
def floatMul (a b : Rat) : Rat := fl53 (a * b)

/-! ## Client model

The service object's configuration (environment variables and the
timestamps the client formats per call), the partner's responses, and the
outbound-call trace. -/

/-- Configuration and formatted timestamps read by the client
(`os.getenv` values and `datetime.utcnow()` renderings). -/
structure Config where
  authorization : String
  financialId : String
  customerId : String
  jws : String
  authDate : String
  nowIso : String
  validUntilIso : String

/-- One partner HTTP response: status code, parsed JSON body
(`response.json()`) and raw text (`response.text`). -/
structure HttpResp where
  status : Nat
  body : JValue
  text : String

/-- The partner's behaviour during one scenario: the response to the
accounts-list endpoint, to the balances endpoint for a given
`account_id`, and to each of the two FX endpoints. -/
structure Env where
  accountsResp : HttpResp
  balanceResp : JValue → HttpResp
  fxRatesResp : HttpResp
  fxQuoteResp : HttpResp

/-- One recorded outbound call: which endpoint and the headers sent. -/
structure Call where
  endpoint : String
  headers : List (String × String)

instance : Inhabited Call := ⟨⟨"", []⟩⟩

/-- Header-map lookup. -/
def slookup : List (String × String) → String → Option String
  | [], _ => none
  | (k, v) :: rest, key => if k = key then some v else slookup rest key

/-- A raised Python exception, by raise site: `apiError` is
`raise Exception(f"... API Error: \x7bstatus\x7d - \x7btext\x7d")` (it
carries the partner's status code and response body), `valueError` is the
FX verification `raise ValueError(...)`, `noData` is the FX "returned no
data" raise, and `typeError` is the implicit `TypeError` of multiplying a
float by a non-number. -/
inductive PyErr where
  | apiError (source : String) (status : Nat) (body : String)
  | valueError (msg : String)
  | noData (msg : String)
  | typeError

/-! ## RequestContext builders

Each builder consumes fresh UUIDs from the generator `gen`, starting at
counter `n`, in the textual order of the `str(uuid.uuid4())` calls in the
source, and returns the headers with the advanced counter. -/

/-- `get_headers`: the standard header bundle (used by the FX-rates and
consent/payment calls). The interaction id is drawn first, the
idempotency key second. -/
def get_headers (cfg : Config) (gen : Nat → String) (n : Nat) (customer_ip : String) :
    List (String × String) × Nat :=
  let interaction_id := gen n
  ([("Authorization", cfg.authorization),
    ("x-financial-id", cfg.financialId),
    ("x-customer-ip-address", customer_ip),
    ("x-customer-user-agent", "StableCoin-Fintech-App/1.0"),
    ("x-interactions-id", interaction_id),
    ("x-idempotency-key", gen (n + 1)),
    ("x-jws-signature", cfg.jws),
    ("x-auth-date", cfg.authDate),
    ("x-customer-id", cfg.customerId),
    ("Content-Type", "application/json"),
    ("Accept", "application/json")], n + 2)

/-- The inline header dict of `get_accounts_new` (accounts-list call);
includes `x-customer-id`. -/
def accountsListHeaders (cfg : Config) (gen : Nat → String) (n : Nat) :
    List (String × String) × Nat :=
  ([("x-jws-signature", cfg.jws),
    ("x-auth-date", cfg.authDate),
    ("x-idempotency-key", gen n),
    ("Authorization", cfg.authorization),
    ("x-customer-user-agent", "StableCoin-Fintech-App/1.0"),
    ("x-financial-id", cfg.financialId),
    ("x-customer-ip-address", "127.0.0.1"),
    ("x-interactions-id", gen (n + 1)),
    ("x-customer-id", cfg.customerId)], n + 2)

/-- The inline header dict of `get_account_balances` (balances call);
`x-customer-id` is not included. -/
def balanceHeaders (cfg : Config) (gen : Nat → String) (n : Nat) (customer_ip : String) :
    List (String × String) × Nat :=
  ([("x-customer-ip-address", customer_ip),
    ("x-customer-user-agent", "StableCoin-Fintech-App/1.0"),
    ("Authorization", cfg.authorization),
    ("x-financial-id", cfg.financialId),
    ("x-auth-date", cfg.authDate),
    ("x-idempotency-key", gen n),
    ("x-jws-signature", cfg.jws),
    ("x-interactions-id", gen (n + 1))], n + 2)

/-- The inline header dict of `get_fx_quote` (FX-quote call);
`x-customer-id` is not included. -/
def fxQuoteHeaders (cfg : Config) (gen : Nat → String) (n : Nat) :
    List (String × String) × Nat :=
  ([("x-interactions-id", gen n),
    ("Authorization", cfg.authorization),
    ("x-financial-id", cfg.financialId),
    ("x-jws-signature", cfg.jws),
    ("x-idempotency-key", gen (n + 1))], n + 2)

/-! ## Accounts fetcher and balance enricher -/

/-- `get_accounts_new`: one accounts-list call; on status 200 return the
body unchanged, otherwise raise carrying the partner status and text.
(`skip`/`limit`/filters only shape the query string, which does not
affect the modelled response.) -/
def get_accounts_new (env : Env) (cfg : Config) (gen : Nat → String)
    (skip limit : Nat) (n : Nat) :
    Except PyErr JValue × Nat × List Call :=
  let h := accountsListHeaders cfg gen n
  let r := env.accountsResp
  let _ := (skip, limit)
  (if r.status = 200 then .ok r.body
   else .error (.apiError "JoPACC API Error" r.status r.text),
   h.2, [⟨"accounts", h.1⟩])

/-- `get_account_balances`: one balances call for `account_id`; on status
200 return the body, otherwise raise carrying status and text. -/
def get_account_balances (env : Env) (cfg : Config) (gen : Nat → String)
    (account_id : JValue) (customer_ip : String) (n : Nat) :
    Except PyErr JValue × Nat × List Call :=
  let h := balanceHeaders cfg gen n customer_ip
  let r := env.balanceResp account_id
  (if r.status = 200 then .ok r.body
   else .error (.apiError "JoPACC Balance API Error" r.status r.text),
   h.2, [⟨"balances", h.1⟩])

/-- Merge one balance response into an account record:
`\x7b**account, "detailed_balances": ..., "balance_last_updated": ...\x7d`. -/
def enrichAccount (account balResp : JValue) : JValue :=
  account.setKeys
    [("detailed_balances", balResp.pyGetD "balances" (.arr [])),
     ("balance_last_updated", balResp.pyGetD "lastUpdated" (account.pyGet "lastUpdated"))]

/-- The per-account body of the enrichment loop: skip accounts without a
truthy `accountId`; call the balances endpoint; keep the original account
record when that call raises. -/
def enrichLoop (env : Env) (cfg : Config) (gen : Nat → String) :
    List JValue → Nat → List JValue × Nat × List Call
  | [], n => ([], n, [])
  | account :: rest, n =>
    let step : JValue × Nat × List Call :=
      if (account.pyGet "accountId").truthy then
        match get_account_balances env cfg gen (account.pyGet "accountId") "127.0.0.1" n with
        | (.ok balResp, n', calls) => (enrichAccount account balResp, n', calls)
        | (.error _, n', calls) => (account, n', calls)
      else (account, n, [])
    let rest' := enrichLoop env cfg gen rest step.2.1
    (step.1 :: rest'.1, rest'.2.1, step.2.2 ++ rest'.2.2)

/-- `get_accounts_with_balances`: the dependent aggregation — one
accounts-list call, then one balances call per listed account with a
truthy id; an accounts-list failure propagates. -/
def get_accounts_with_balances (env : Env) (cfg : Config) (gen : Nat → String)
    (skip limit : Nat) (n : Nat) :
    Except PyErr JValue × Nat × List Call :=
  match get_accounts_new env cfg gen skip limit n with
  | (.error e, n', calls) => (.error e, n', calls)
  | (.ok accountsResp, n', calls) =>
    let accounts := (accountsResp.pyGetD "accounts" (.arr [])).asArr
    let r := enrichLoop env cfg gen accounts n'
    (.ok (.obj [("accounts", .arr r.1),
                ("totalCount", .num (r.1.length : Rat)),
                ("hasMore", accountsResp.pyGetD "hasMore" (.bool false))]),
     r.2.1, calls ++ r.2.2)

/-! ## FX resolver -/

/-- `get_fx_rates`: one FX-rates call with the standard `get_headers`
bundle; non-200 raises with status and text. -/
def get_fx_rates (env : Env) (cfg : Config) (gen : Nat → String) (n : Nat) :
    Except PyErr JValue × Nat × List Call :=
  let h := get_headers cfg gen n "127.0.0.1"
  let r := env.fxRatesResp
  (if r.status = 200 then .ok r.body
   else .error (.apiError "JoPACC FX Rates API Error" r.status r.text),
   h.2, [⟨"fx-rates", h.1⟩])

/-- Python `amount` parameter (`float = None`): absent/`None` or a float. -/
def jAmount (amount : Option Rat) : JValue :=
  match amount with
  | none => .null
  | some q => .num q

/-- Truthiness of the `amount` parameter (`if amount`): `None` and `0`
are falsy. -/
def amountTruthy (amount : Option Rat) : Bool :=
  match amount with
  | none => false
  | some q => q != 0

/-- `amount * rate if amount else None`: `None` when `amount` is falsy;
otherwise float multiplication, a `TypeError` if the rate value is not a
number. -/
def convertedAmountOf (amount : Option Rat) (rateJ : JValue) : Except PyErr JValue :=
  if amountTruthy amount then
    match amount, rateJ with
    | some a, .num r => .ok (.num (floatMul a r))
    | _, _ => .error .typeError
  else .ok .null

/-- The quote dict built by `get_fx_quote` from a chosen rate entry
(`targetCurrencyJ` is `target_currency` in the exact-match branch and the
first rate's pair in the fallback branch). -/
def quoteObj (cfg : Config) (gen : Nat → String) (nq : Nat)
    (fxRate : JValue) (targetCurrencyJ : JValue) (amount : Option Rat) (conv : JValue) :
    JValue :=
  .obj [("quoteId", .str (gen nq)),
        ("baseCurrency", fxRate.pyGetD "sourceCurrency" (.str "JOD")),
        ("targetCurrency", targetCurrencyJ),
        ("rate", fxRate.pyGetD "conversionValue" (.num 1)),
        ("amount", jAmount amount),
        ("convertedAmount", conv),
        ("validUntil", .str cfg.validUntilIso),
        ("timestamp", .str cfg.nowIso)]

/-- The tail of a `get_fx_quote` branch once a rate entry is chosen:
compute the converted amount (a `TypeError` propagates), build the quote
dict — whose `quoteId` draws one more UUID — and report the advanced
counter. -/
def quoteResultAndCount (cfg : Config) (gen : Nat → String) (nq : Nat)
    (fxRate targetJ : JValue) (amount : Option Rat) :
    Except PyErr JValue × Nat :=
  match convertedAmountOf amount (fxRate.pyGetD "conversionValue" (.num 1)) with
  | .ok conv => (.ok (quoteObj cfg gen nq fxRate targetJ amount conv), nq + 1)
  | .error e => (.error e, nq)

/-- `get_fx_quote`: one FX call (inline headers without
`x-customer-id`); on 200, pick the first rate whose `targetCurrency`
equals `target_currency` exactly, else fall back to the first rate in the
list; raise "no data" when `data` is missing or falsy. -/
def get_fx_quote (env : Env) (cfg : Config) (gen : Nat → String)
    (target_currency : String) (amount : Option Rat) (n : Nat) :
    Except PyErr JValue × Nat × List Call :=
  let h := fxQuoteHeaders cfg gen n
  let r := env.fxQuoteResp
  let calls := [Call.mk "fx-quote" h.1]
  if r.status = 200 then
    if r.body.hasKey "data" && (r.body.pyGet "data").truthy then
      let ds := (r.body.pyGet "data").asArr
      match ds.find? (fun fx => (fx.pyGet "targetCurrency").eqStr target_currency) with
      | some fxRate =>
        let qc := quoteResultAndCount cfg gen h.2 fxRate (.str target_currency) amount
        (qc.1, qc.2, calls)
      | none =>
        match ds with
        | first :: _ =>
          let qc := quoteResultAndCount cfg gen h.2 first
            (first.pyGetD "targetCurrency" (.str target_currency)) amount
          (qc.1, qc.2, calls)
        | [] => (.error .typeError, h.2, calls)
      else (.error (.noData "JoPACC FX API returned no data"), h.2, calls)
  else (.error (.apiError "JoPACC FX API Error" r.status r.text), h.2, calls)

/-- The account-verification scan shared by the two `_for_account`
operations: the first listed account whose `accountId` equals
`account_id`. -/
def findAccount (accounts : List JValue) (account_id : String) : Option JValue :=
  accounts.find? (fun a => (a.pyGet "accountId").eqStr account_id)

/-- The `try:` body of `get_fx_rates_for_account`: fetch accounts
(limit 50), require `account_id` to be listed, fetch FX rates, and build
the enriched result (no warning key). -/
def fxRatesTryBody (env : Env) (cfg : Config) (gen : Nat → String)
    (account_id : String) (n : Nat) :
    Except PyErr JValue × Nat × List Call :=
  match get_accounts_new env cfg gen 0 50 n with
  | (.error e, n', c) => (.error e, n', c)
  | (.ok accountsResp, n', c) =>
    match findAccount (accountsResp.pyGetD "accounts" (.arr [])).asArr account_id with
    | none => (.error (.valueError ("Account " ++ account_id ++ " not found")), n', c)
    | some account =>
      match get_fx_rates env cfg gen n' with
      | (.error e, n'', c2) => (.error e, n'', c ++ c2)
      | (.ok fx, n'', c2) =>
        (.ok (.obj [("account_id", .str account_id),
                    ("account_currency", account.pyGetD "currency" (.str "JOD")),
                    ("fx_data", fx),
                    ("rates_for_account", fx.pyGetD "rates" (.arr [])),
                    ("last_updated", fx.pyGetD "lastUpdated" (.str cfg.nowIso))]),
         n'', c ++ c2)

/-- `get_fx_rates_for_account`: the `try:` body above; on any exception,
the `except:` path retries the FX-rates call and returns the same shape
plus a `warning` key (an FX failure inside the `except:` propagates). -/
def get_fx_rates_for_account (env : Env) (cfg : Config) (gen : Nat → String)
    (account_id : String) (n : Nat) :
    Except PyErr JValue × Nat × List Call :=
  match fxRatesTryBody env cfg gen account_id n with
  | (.ok v, n', c) => (.ok v, n', c)
  | (.error _, n', c) =>
    match get_fx_rates env cfg gen n' with
    | (.error e, n'', c2) => (.error e, n'', c ++ c2)
    | (.ok fx, n'', c2) =>
      (.ok (.obj [("account_id", .str account_id),
                  ("account_currency", .str "JOD"),
                  ("fx_data", fx),
                  ("rates_for_account", fx.pyGetD "rates" (.arr [])),
                  ("last_updated", fx.pyGetD "lastUpdated" (.str cfg.nowIso)),
                  ("warning", .str "Account verification failed, using default FX rates")]),
       n'', c ++ c2)

/-- The `try:` body of `get_fx_quote_for_account`: verify the account,
get a quote, and build the enriched result (no warning key). -/
def fxQuoteTryBody (env : Env) (cfg : Config) (gen : Nat → String)
    (account_id target_currency : String) (amount : Option Rat) (n : Nat) :
    Except PyErr JValue × Nat × List Call :=
  match get_accounts_new env cfg gen 0 50 n with
  | (.error e, n', c) => (.error e, n', c)
  | (.ok accountsResp, n', c) =>
    match findAccount (accountsResp.pyGetD "accounts" (.arr [])).asArr account_id with
    | none => (.error (.valueError ("Account " ++ account_id ++ " not found")), n', c)
    | some account =>
      match get_fx_quote env cfg gen target_currency amount n' with
      | (.error e, n'', c2) => (.error e, n'', c ++ c2)
      | (.ok q, n'', c2) =>
        (.ok (.obj [("account_id", .str account_id),
                    ("account_currency", account.pyGetD "currency" (.str "JOD")),
                    ("quote_data", q),
                    ("base_currency", q.pyGetD "baseCurrency" (account.pyGetD "currency" (.str "JOD"))),
                    ("target_currency", .str target_currency),
                    ("rate", q.pyGetD "rate" (.num 1)),
                    ("amount", jAmount amount),
                    ("converted_amount", q.pyGet "convertedAmount"),
                    ("quote_id", q.pyGet "quoteId"),
                    ("valid_until", q.pyGet "validUntil"),
                    ("timestamp", q.pyGet "timestamp")]),
         n'', c ++ c2)

/-- `get_fx_quote_for_account`: the `try:` body above; on any exception,
the `except:` path retries the quote and returns
`\x7baccount_id, account_currency, quote_data, **quote_response, warning\x7d`. -/
def get_fx_quote_for_account (env : Env) (cfg : Config) (gen : Nat → String)
    (account_id target_currency : String) (amount : Option Rat) (n : Nat) :
    Except PyErr JValue × Nat × List Call :=
  match fxQuoteTryBody env cfg gen account_id target_currency amount n with
  | (.ok v, n', c) => (.ok v, n', c)
  | (.error _, n', c) =>
    match get_fx_quote env cfg gen target_currency amount n' with
    | (.error e, n'', c2) => (.error e, n'', c ++ c2)
    | (.ok q, n'', c2) =>
      let base : JValue :=
        .obj [("account_id", .str account_id),
              ("account_currency", .str "JOD"),
              ("quote_data", q)]
      let spread :=
        match q with
        | .obj fs => base.setKeys fs
        | _ => base
      (.ok (spread.setKey "warning" (.str "Account verification failed, using default FX quote")),
       n'', c ++ c2)

/-! ## Concrete fixtures for witnesses and counterexamples -/

/-- A concrete configuration. -/
def cfgA : Config :=
  ⟨"Bearer demo_token", "001", "customer_123", "sig", "2026-01-01T00:00:00Z",
   "2026-01-01T00:00:00Z", "2026-01-01T00:05:00Z"⟩

/-- A concrete injective UUID source: the `k`-th draw is the string of
`k` letters `u`. -/
def gen0 (k : Nat) : String := String.mk (List.replicate k 'u')

/-- Raw account record `acc_1` (current balance 100.00 JOD). -/
def acctA1 : JValue :=
  .obj [("accountId", .str "acc_1"), ("currency", .str "JOD"),
        ("accountType", .str "current"),
        ("balance", .obj [("current", .num 100), ("available", .num 90)]),
        ("lastUpdated", .str "2025-12-31T00:00:00Z")]

/-- Raw account record `acc_2` (current balance 200.50 JOD). -/
def acctA2 : JValue :=
  .obj [("accountId", .str "acc_2"), ("currency", .str "JOD"),
        ("accountType", .str "savings"),
        ("balance", .obj [("current", .num (401 / 2)), ("available", .num 200)]),
        ("lastUpdated", .str "2025-12-31T00:00:00Z")]

/-- Raw account record `acc_3` (current balance 50.25 JOD). -/
def acctA3 : JValue :=
  .obj [("accountId", .str "acc_3"), ("currency", .str "JOD"),
        ("accountType", .str "business"),
        ("balance", .obj [("current", .num (201 / 4)), ("available", .num 50)]),
        ("lastUpdated", .str "2025-12-31T00:00:00Z")]

/-- A successful balances body. -/
def balBodyA : JValue :=
  .obj [("balances", .arr [.obj [("type", .str "ClosingAvailable"), ("amount", .num 100),
                                 ("currency", .str "JOD")]]),
        ("lastUpdated", .str "2026-01-01T00:00:00Z")]

/-- A successful accounts-list body with the three accounts above. -/
def accountsBodyA : JValue :=
  .obj [("accounts", .arr [acctA1, acctA2, acctA3]), ("hasMore", .bool false)]

/-- Scenario B environment: accounts-list succeeds, the balances call
fails with HTTP 500 for `acc_2` only, FX endpoints succeed. -/
def envB : Env where
  accountsResp := ⟨200, accountsBodyA, "ok"⟩
  balanceResp := fun aId =>
    if aId.eqStr "acc_2" then ⟨500, .null, "Internal Server Error"⟩ else ⟨200, balBodyA, "ok"⟩
  fxRatesResp := ⟨200, .obj [("rates", .arr []), ("lastUpdated", .str "2026-01-01T00:00:00Z")], "ok"⟩
  fxQuoteResp := ⟨200, .obj [("data", .arr [.obj [("sourceCurrency", .str "JOD"),
                                                  ("targetCurrency", .str "USD"),
                                                  ("conversionValue", .num (fl53 (709 / 1000)))]])],
                  "ok"⟩

/-- The USD rate entry of spec scenario C: the JSON literal `0.709`
parses to the binary64 value `fl53 (709/1000)`. -/
def usdRateC : JValue :=
  .obj [("sourceCurrency", .str "JOD"), ("targetCurrency", .str "USD"),
        ("conversionValue", .num (fl53 (709 / 1000)))]

/-- The EUR rate entry of spec scenario C (`0.647` as a binary64). -/
def eurRateC : JValue :=
  .obj [("sourceCurrency", .str "JOD"), ("targetCurrency", .str "EUR"),
        ("conversionValue", .num (fl53 (647 / 1000)))]

/-- Scenario C environment: the FX endpoint returns the rate table
`\x7bUSD: 0.709, EUR: 0.647\x7d`; everything else succeeds. -/
def envC : Env where
  accountsResp := ⟨200, accountsBodyA, "ok"⟩
  balanceResp := fun _ => ⟨200, balBodyA, "ok"⟩
  fxRatesResp := ⟨200, .obj [("rates", .arr [])], "ok"⟩
  fxQuoteResp := ⟨200, .obj [("data", .arr [usdRateC, eurRateC])], "ok"⟩

/-- Scenario of C5's witness: every partner endpoint fails. -/
def envFail : Env where
  accountsResp := ⟨500, .null, "Internal Server Error"⟩
  balanceResp := fun _ => ⟨503, .null, "Service Unavailable"⟩
  fxRatesResp := ⟨502, .null, "Bad Gateway"⟩
  fxQuoteResp := ⟨502, .null, "Bad Gateway"⟩

/-- What the enrichment loop does to a single listed account: enrich it
when it has a truthy id and its balance call returns 200, otherwise keep
it unchanged. -/
def enrichStep (env : Env) (a : JValue) : JValue :=
  if (a.pyGet "accountId").truthy then
    if (env.balanceResp (a.pyGet "accountId")).status = 200 then
      enrichAccount a (env.balanceResp (a.pyGet "accountId")).body
    else a
  else a

/-- The key set of a dict value. -/
def objKeys (j : JValue) : List String :=
  match j with
  | .obj fs => fs.map Prod.fst
  | _ => []

/-- `balance.current` of an account record, read as a number. -/
def currentOf (a : JValue) : Rat :=
  match (a.pyGet "balance").pyGet "current" with
  | .num q => q
  | _ => 0

/-- The derivable total of §8: sum of `balance.current` over a list of
account records. -/
def sumCurrents (l : List JValue) : Rat := (l.map currentOf).sum

/-- The call trace of the scenario-B aggregation (for the C6 witness). -/
def c6Trace : List Call := (get_accounts_with_balances envB cfgA gen0 0 10 0).2.2

/-- The first call of that trace (the accounts-list call). -/
def c6c0 : Call := c6Trace[0]?.getD default

/-- The second call of that trace (the `acc_1` balances call). -/
def c6c1 : Call := c6Trace[1]?.getD default

/-! ## Helper lemmas -/

theorem gen0_injective : Function.Injective gen0 := by
  intro a b h
  have hl : (List.replicate a 'u').length = (List.replicate b 'u').length := by
    simpa [gen0] using congrArg String.length h
  simpa using hl

theorem enrichLoop_fst (env : Env) (cfg : Config) (gen : Nat → String) :
    ∀ (accts : List JValue) (n : Nat),
      (enrichLoop env cfg gen accts n).1 = accts.map (enrichStep env) := by
  intro accts
  induction accts with
  | nil => intro n; rfl
  | cons a rest ih =>
    intro n
    by_cases ht : (a.pyGet "accountId").truthy
    · by_cases hs : (env.balanceResp (a.pyGet "accountId")).status = 200
      · simp [enrichLoop, get_account_balances, enrichStep, ht, hs, ih]
      · simp [enrichLoop, get_account_balances, enrichStep, ht, hs, ih]
    · simp [enrichLoop, enrichStep, ht, ih]

theorem lookupKey_setPair (fs : List (String × JValue)) (k : String) (v : JValue)
    (key : String) :
    lookupKey (setPair fs k v) key = if key = k then some v else lookupKey fs key := by
  induction fs with
  | nil =>
    by_cases h : k = key
    · simp [setPair, lookupKey, h]
    · simp [setPair, lookupKey, h, Ne.symm h]
  | cons p rest ih =>
    obtain ⟨pk, pv⟩ := p
    by_cases hpk : pk = k
    · subst hpk
      by_cases h : pk = key
      · simp [setPair, lookupKey, h]
      · simp [setPair, lookupKey, h, Ne.symm h]
    · by_cases hq : pk = key
      · have hkk : key ≠ k := fun h => hpk (hq.trans h)
        simp [setPair, lookupKey, hpk, hq, hkk]
      · simp [setPair, lookupKey, hpk, hq, ih]

theorem pyGetOpt_setKey_ne (j : JValue) (k : String) (v : JValue) (key : String)
    (h : key ≠ k) : (j.setKey k v).pyGetOpt key = j.pyGetOpt key := by
  cases j <;> simp [JValue.setKey, JValue.pyGetOpt, lookupKey_setPair, h]

theorem pyGet_enrichAccount_ne (a b : JValue) (key : String)
    (h1 : key ≠ "detailed_balances") (h2 : key ≠ "balance_last_updated") :
    (enrichAccount a b).pyGet key = a.pyGet key := by
  simp [enrichAccount, JValue.setKeys, JValue.pyGet, pyGetOpt_setKey_ne, h1, h2]

theorem pyGet_enrichStep_ne (env : Env) (a : JValue) (key : String)
    (h1 : key ≠ "detailed_balances") (h2 : key ≠ "balance_last_updated") :
    (enrichStep env a).pyGet key = a.pyGet key := by
  unfold enrichStep
  by_cases ht : (a.pyGet "accountId").truthy
  · by_cases hs : (env.balanceResp (a.pyGet "accountId")).status = 200
    · simp [ht, hs, pyGet_enrichAccount_ne _ _ _ h1 h2]
    · simp [ht, hs]
  · simp [ht]

/-- Successful aggregation, evaluated: the result is the enrichment map
over the listed accounts, with `totalCount` and `hasMore`. -/
theorem aggSuccess_eq (env : Env) (cfg : Config) (gen : Nat → String)
    (skip limit n : Nat) (h200 : env.accountsResp.status = 200) :
    (get_accounts_with_balances env cfg gen skip limit n).1 =
      .ok (.obj
        [("accounts", .arr
            (((env.accountsResp.body.pyGetD "accounts" (.arr [])).asArr).map (enrichStep env))),
         ("totalCount", .num
            (((((env.accountsResp.body.pyGetD "accounts" (.arr [])).asArr).map
                (enrichStep env)).length : Nat) : Rat)),
         ("hasMore", env.accountsResp.body.pyGetD "hasMore" (.bool false))]) := by
  simp [get_accounts_with_balances, get_accounts_new, h200, enrichLoop_fst]

theorem currentOf_enrichStep (env : Env) (a : JValue) :
    currentOf (enrichStep env a) = currentOf a := by
  unfold currentOf
  rw [pyGet_enrichStep_ne env a "balance" (by decide) (by decide)]

theorem sumCurrents_map_enrichStep (env : Env) (l : List JValue) :
    sumCurrents (l.map (enrichStep env)) = sumCurrents l := by
  induction l with
  | nil => rfl
  | cons a rest ih => simp [sumCurrents, currentOf_enrichStep, List.sum_cons] at ih ⊢; rw [ih]

theorem slookup_balanceHeaders_idem (cfg : Config) (gen : Nat → String) (n : Nat)
    (ip : String) :
    slookup (balanceHeaders cfg gen n ip).1 "x-idempotency-key" = some (gen n) := rfl

theorem slookup_balanceHeaders_inter (cfg : Config) (gen : Nat → String) (n : Nat)
    (ip : String) :
    slookup (balanceHeaders cfg gen n ip).1 "x-interactions-id" = some (gen (n + 1)) := rfl

theorem slookup_accountsListHeaders_idem (cfg : Config) (gen : Nat → String) (n : Nat) :
    slookup (accountsListHeaders cfg gen n).1 "x-idempotency-key" = some (gen n) := rfl

theorem slookup_accountsListHeaders_inter (cfg : Config) (gen : Nat → String) (n : Nat) :
    slookup (accountsListHeaders cfg gen n).1 "x-interactions-id" = some (gen (n + 1)) := rfl

/-- Every call recorded by the enrichment loop started at counter `n`
draws its idempotency key as the `(n + 2i)`-th UUID and its interaction
id as the `(n + 2i + 1)`-th, where `i` is the call's position. -/
theorem enrichLoop_calls_spec (env : Env) (cfg : Config) (gen : Nat → String) :
    ∀ (accts : List JValue) (n i : Nat) (c : Call),
      ((enrichLoop env cfg gen accts n).2.2)[i]? = some c →
      slookup c.headers "x-idempotency-key" = some (gen (n + 2 * i)) ∧
      slookup c.headers "x-interactions-id" = some (gen (n + 2 * i + 1)) := by
  intro accts
  induction accts with
  | nil => intro n i c hc; simp [enrichLoop] at hc
  | cons a rest ih =>
    intro n i c hc
    by_cases ht : (a.pyGet "accountId").truthy
    · have hshape :
        (enrichLoop env cfg gen (a :: rest) n).2.2 =
          Call.mk "balances" (balanceHeaders cfg gen n "127.0.0.1").1 ::
            (enrichLoop env cfg gen rest (n + 2)).2.2 := by
        by_cases hs : (env.balanceResp (a.pyGet "accountId")).status = 200
        · simp [enrichLoop, get_account_balances, balanceHeaders, ht, hs]
        · simp [enrichLoop, get_account_balances, balanceHeaders, ht, hs]
      rw [hshape] at hc
      cases i with
      | zero =>
        simp only [List.getElem?_cons_zero, Option.some.injEq] at hc
        subst hc
        exact ⟨slookup_balanceHeaders_idem cfg gen n "127.0.0.1",
               slookup_balanceHeaders_inter cfg gen n "127.0.0.1"⟩
      | succ i =>
        simp only [List.getElem?_cons_succ] at hc
        have h := ih (n + 2) i c hc
        have e1 : n + 2 + 2 * i = n + 2 * (i + 1) := by ring
        rw [e1] at h
        exact h
    · have hshape :
        (enrichLoop env cfg gen (a :: rest) n).2.2 =
          (enrichLoop env cfg gen rest n).2.2 := by
        simp [enrichLoop, ht]
      rw [hshape] at hc
      exact ih n i c hc

/-- Every call of one aggregation draws its idempotency key as the
`(n + 2i)`-th UUID and its interaction id as the `(n + 2i + 1)`-th. -/
theorem agg_calls_spec (env : Env) (cfg : Config) (gen : Nat → String)
    (skip limit n : Nat) (i : Nat) (c : Call)
    (hc : ((get_accounts_with_balances env cfg gen skip limit n).2.2)[i]? = some c) :
    slookup c.headers "x-idempotency-key" = some (gen (n + 2 * i)) ∧
    slookup c.headers "x-interactions-id" = some (gen (n + 2 * i + 1)) := by
  by_cases hs : env.accountsResp.status = 200
  · have hshape :
      (get_accounts_with_balances env cfg gen skip limit n).2.2 =
        Call.mk "accounts" (accountsListHeaders cfg gen n).1 ::
          (enrichLoop env cfg gen
            ((env.accountsResp.body.pyGetD "accounts" (.arr [])).asArr) (n + 2)).2.2 := by
      simp [get_accounts_with_balances, get_accounts_new, accountsListHeaders, hs]
    rw [hshape] at hc
    cases i with
    | zero =>
      simp only [List.getElem?_cons_zero, Option.some.injEq] at hc
      subst hc
      exact ⟨slookup_accountsListHeaders_idem cfg gen n,
             slookup_accountsListHeaders_inter cfg gen n⟩
    | succ i =>
      simp only [List.getElem?_cons_succ] at hc
      have h := enrichLoop_calls_spec env cfg gen _ (n + 2) i c hc
      have e1 : n + 2 + 2 * i = n + 2 * (i + 1) := by ring
      rw [e1] at h
      exact h
  · have hshape :
      (get_accounts_with_balances env cfg gen skip limit n).2.2 =
        [Call.mk "accounts" (accountsListHeaders cfg gen n).1] := by
      simp [get_accounts_with_balances, get_accounts_new, accountsListHeaders, hs]
    rw [hshape] at hc
    cases i with
    | zero =>
      simp only [List.getElem?_cons_zero, Option.some.injEq] at hc
      subst hc
      exact ⟨slookup_accountsListHeaders_idem cfg gen n,
             slookup_accountsListHeaders_inter cfg gen n⟩
    | succ i => simp at hc

theorem pyGetOpt_of_pyGet_arr (j : JValue) (k : String) (xs : List JValue)
    (h : j.pyGet k = .arr xs) : j.pyGetOpt k = some (.arr xs) := by
  cases ho : j.pyGetOpt k with
  | none =>
    simp only [JValue.pyGet, ho, Option.getD_none] at h
    exact absurd h (fun hh => JValue.noConfusion hh)
  | some v =>
    simp only [JValue.pyGet, ho, Option.getD_some] at h
    rw [h]

/-- Multiplying by a numeric rate never raises: the converted amount is
`None` for a falsy amount and a float product otherwise. -/
theorem convertedAmountOf_num_ok (amount : Option Rat) (q : Rat) :
    ∃ conv, convertedAmountOf amount (.num q) = .ok conv := by
  by_cases h : amountTruthy amount = true
  · cases amount with
    | none => simp [amountTruthy] at h
    | some a => exact ⟨.num (floatMul a q), by simp [convertedAmountOf, h]⟩
  · exact ⟨.null, by simp [convertedAmountOf, h]⟩

/-- Evaluation of `get_fx_quote` on a 200 response whose `data` is a
non-empty list: exact `targetCurrency` match wins, else the first rate is
used as fallback. -/
theorem fx_quote_eval (env : Env) (cfg : Config) (gen : Nat → String)
    (target : String) (amount : Option Rat) (n : Nat)
    (d : JValue) (ds : List JValue)
    (h200 : env.fxQuoteResp.status = 200)
    (hdata : env.fxQuoteResp.body.pyGet "data" = .arr (d :: ds)) :
    (get_fx_quote env cfg gen target amount n).1 =
      (match (d :: ds).find? (fun fx => (fx.pyGet "targetCurrency").eqStr target) with
       | some fxRate => (quoteResultAndCount cfg gen (n + 2) fxRate (.str target) amount).1
       | none =>
         (quoteResultAndCount cfg gen (n + 2) d (d.pyGetD "targetCurrency" (.str target))
           amount).1) := by
  have hkey : env.fxQuoteResp.body.hasKey "data" = true := by
    simp [JValue.hasKey, pyGetOpt_of_pyGet_arr _ _ _ hdata]
  have htr : (env.fxQuoteResp.body.hasKey "data" && (env.fxQuoteResp.body.pyGet "data").truthy)
      = true := by
    rw [hkey, hdata]
    rfl
  simp only [get_fx_quote]
  rw [if_pos h200, if_pos htr, hdata]
  simp only [JValue.asArr]
  cases hfind : (d :: ds).find? (fun fx => (fx.pyGet "targetCurrency").eqStr target) with
  | some fxRate => rfl
  | none => rfl

/-- `get_fx_rates_for_account` when verification succeeds: enriched
result without a warning key. -/
theorem rates_for_account_ok (env : Env) (cfg : Config) (gen : Nat → String)
    (account_id : String) (n : Nat) (a : JValue)
    (hacc : env.accountsResp.status = 200)
    (hfind : findAccount ((env.accountsResp.body.pyGetD "accounts" (.arr [])).asArr)
        account_id = some a)
    (hfxr : env.fxRatesResp.status = 200) :
    (get_fx_rates_for_account env cfg gen account_id n).1 =
      .ok (.obj [("account_id", .str account_id),
                 ("account_currency", a.pyGetD "currency" (.str "JOD")),
                 ("fx_data", env.fxRatesResp.body),
                 ("rates_for_account", env.fxRatesResp.body.pyGetD "rates" (.arr [])),
                 ("last_updated", env.fxRatesResp.body.pyGetD "lastUpdated" (.str cfg.nowIso))]) := by
  simp [get_fx_rates_for_account, fxRatesTryBody, get_accounts_new, get_fx_rates, hacc, hfind,
    hfxr]

/-- `get_fx_rates_for_account` when verification fails (accounts fetch
error or account not listed): still returns (does not raise, provided the
FX call succeeds), with the warning key. -/
theorem rates_for_account_degraded (env : Env) (cfg : Config) (gen : Nat → String)
    (account_id : String) (n : Nat)
    (hver : env.accountsResp.status ≠ 200 ∨
      findAccount ((env.accountsResp.body.pyGetD "accounts" (.arr [])).asArr)
        account_id = none)
    (hfxr : env.fxRatesResp.status = 200) :
    (get_fx_rates_for_account env cfg gen account_id n).1 =
      .ok (.obj [("account_id", .str account_id),
                 ("account_currency", .str "JOD"),
                 ("fx_data", env.fxRatesResp.body),
                 ("rates_for_account", env.fxRatesResp.body.pyGetD "rates" (.arr [])),
                 ("last_updated", env.fxRatesResp.body.pyGetD "lastUpdated" (.str cfg.nowIso)),
                 ("warning", .str "Account verification failed, using default FX rates")]) := by
  rcases hver with h | h
  · simp [get_fx_rates_for_account, fxRatesTryBody, get_accounts_new, get_fx_rates, h, hfxr]
  · by_cases hacc : env.accountsResp.status = 200
    · simp [get_fx_rates_for_account, fxRatesTryBody, get_accounts_new, get_fx_rates, hacc, h,
        hfxr]
    · simp [get_fx_rates_for_account, fxRatesTryBody, get_accounts_new, get_fx_rates, hacc, hfxr]

/-- `get_fx_quote_for_account` when verification succeeds: enriched
result without a warning key, carrying the quote under `quote_data`. -/
theorem quote_for_account_ok (env : Env) (cfg : Config) (gen : Nat → String)
    (account_id target : String) (amount : Option Rat) (n : Nat) (a q : JValue)
    (hacc : env.accountsResp.status = 200)
    (hfind : findAccount ((env.accountsResp.body.pyGetD "accounts" (.arr [])).asArr)
        account_id = some a)
    (hq : (get_fx_quote env cfg gen target amount (n + 2)).1 = .ok q) :
    (get_fx_quote_for_account env cfg gen account_id target amount n).1 =
      .ok (.obj [("account_id", .str account_id),
                 ("account_currency", a.pyGetD "currency" (.str "JOD")),
                 ("quote_data", q),
                 ("base_currency", q.pyGetD "baseCurrency" (a.pyGetD "currency" (.str "JOD"))),
                 ("target_currency", .str target),
                 ("rate", q.pyGetD "rate" (.num 1)),
                 ("amount", jAmount amount),
                 ("converted_amount", q.pyGet "convertedAmount"),
                 ("quote_id", q.pyGet "quoteId"),
                 ("valid_until", q.pyGet "validUntil"),
                 ("timestamp", q.pyGet "timestamp")]) := by
  rcases hgfq : get_fx_quote env cfg gen target amount (n + 2) with ⟨r1, r2, r3⟩
  rw [hgfq] at hq
  simp only at hq
  subst hq
  simp [get_fx_quote_for_account, fxQuoteTryBody, get_accounts_new, accountsListHeaders, hacc,
    hfind, hgfq]

/-- `get_fx_quote_for_account` when verification fails: still returns,
spreading the fallback quote's fields and appending the warning key. -/
theorem quote_for_account_degraded (env : Env) (cfg : Config) (gen : Nat → String)
    (account_id target : String) (amount : Option Rat) (n : Nat)
    (fs : List (String × JValue))
    (hver : env.accountsResp.status ≠ 200 ∨
      findAccount ((env.accountsResp.body.pyGetD "accounts" (.arr [])).asArr)
        account_id = none)
    (hq : (get_fx_quote env cfg gen target amount (n + 2)).1 = .ok (.obj fs)) :
    (get_fx_quote_for_account env cfg gen account_id target amount n).1 =
      .ok (((JValue.obj [("account_id", .str account_id),
                         ("account_currency", .str "JOD"),
                         ("quote_data", .obj fs)]).setKeys fs).setKey "warning"
            (.str "Account verification failed, using default FX quote")) := by
  rcases hgfq : get_fx_quote env cfg gen target amount (n + 2) with ⟨r1, r2, r3⟩
  rw [hgfq] at hq
  simp only at hq
  subst hq
  rcases hver with h | h
  · simp [get_fx_quote_for_account, fxQuoteTryBody, get_accounts_new, accountsListHeaders, h,
      hgfq]
  · by_cases hacc : env.accountsResp.status = 200
    · simp [get_fx_quote_for_account, fxQuoteTryBody, get_accounts_new, accountsListHeaders,
        hacc, h, hgfq]
    · simp [get_fx_quote_for_account, fxQuoteTryBody, get_accounts_new, accountsListHeaders,
        hacc, hgfq]

/-! ## Claim theorems -/

/-- C1: two-tier failure policy of `get_accounts_with_balances` — if the
accounts-list fetch fails (non-200), the whole aggregation fails with
that error propagated to the caller; if it succeeds, the aggregation
succeeds and returns exactly one entry per listed account (the result's
`accounts` is the enrichment map over the listed accounts, whatever the
per-account balance calls did). -/
theorem C1_two_tier_failure_policy (env : Env) (cfg : Config) (gen : Nat → String)
    (skip limit n : Nat) :
    (env.accountsResp.status ≠ 200 →
      (get_accounts_with_balances env cfg gen skip limit n).1 =
        .error (.apiError "JoPACC API Error" env.accountsResp.status env.accountsResp.text)) ∧
    (env.accountsResp.status = 200 →
      ∃ enriched : List JValue,
        (get_accounts_with_balances env cfg gen skip limit n).1 =
          .ok (.obj [("accounts", .arr enriched),
                     ("totalCount", .num ((enriched.length : Nat) : Rat)),
                     ("hasMore", env.accountsResp.body.pyGetD "hasMore" (.bool false))]) ∧
        enriched = ((env.accountsResp.body.pyGetD "accounts" (.arr [])).asArr).map (enrichStep env) ∧
        enriched.length = ((env.accountsResp.body.pyGetD "accounts" (.arr [])).asArr).length) := by
  constructor
  · intro h
    simp [get_accounts_with_balances, get_accounts_new, h]
  · intro h
    exact ⟨_, aggSuccess_eq env cfg gen skip limit n h, rfl, by simp⟩

/-- C1 witness: in the scenario-B environment the accounts-list call
succeeds, one balance call fails, and the aggregation still returns one
entry per listed account. -/
theorem C1_witness :
    ∃ enriched : List JValue,
      (get_accounts_with_balances envB cfgA gen0 0 10 0).1 =
        .ok (.obj [("accounts", .arr enriched),
                   ("totalCount", .num ((enriched.length : Nat) : Rat)),
                   ("hasMore", envB.accountsResp.body.pyGetD "hasMore" (.bool false))]) ∧
      enriched = ((envB.accountsResp.body.pyGetD "accounts" (.arr [])).asArr).map (enrichStep envB) ∧
      enriched.length = ((envB.accountsResp.body.pyGetD "accounts" (.arr [])).asArr).length :=
  (C1_two_tier_failure_policy envB cfgA gen0 0 10 0).2 rfl

/-- C4 counterexample: the claim says every FX-quote call's header set
contains a customer-id field, but the single outbound call made by
`get_fx_quote` carries no `x-customer-id` header at all. -/
theorem C4_counterexample :
    ((get_fx_quote envB cfgA gen0 "USD" none 0).2.2.map
      (fun c => slookup c.headers "x-customer-id")) = [none] := by
  with_unfolding_all rfl

/-- C4 amended: balance calls AND FX-quote calls carry no customer-id
header, while accounts-list calls and FX-rates calls (which use the
standard `get_headers` bundle) always carry `x-customer-id`. -/
theorem C4_amended_header_asymmetry (cfg : Config) (gen : Nat → String)
    (n m k l : Nat) (ip ip' : String) :
    slookup (balanceHeaders cfg gen n ip).1 "x-customer-id" = none ∧
    slookup (fxQuoteHeaders cfg gen m).1 "x-customer-id" = none ∧
    slookup (accountsListHeaders cfg gen k).1 "x-customer-id" = some cfg.customerId ∧
    slookup (get_headers cfg gen l ip').1 "x-customer-id" = some cfg.customerId :=
  ⟨rfl, rfl, rfl, rfl⟩

/-- C5: on a non-success HTTP status, the accounts fetcher and the
balance fetcher raise a typed error carrying the partner's status code
and response body; being an `Except.error`, the result is in particular
never a synthetic/empty/mock `.ok` payload. -/
theorem C5_no_synthetic_data (env : Env) (cfg : Config) (gen : Nat → String)
    (skip limit n m : Nat) (account_id : JValue) (ip : String) :
    (env.accountsResp.status ≠ 200 →
      (get_accounts_new env cfg gen skip limit n).1 =
        .error (.apiError "JoPACC API Error" env.accountsResp.status env.accountsResp.text)) ∧
    ((env.balanceResp account_id).status ≠ 200 →
      (get_account_balances env cfg gen account_id ip m).1 =
        .error (.apiError "JoPACC Balance API Error" (env.balanceResp account_id).status
          (env.balanceResp account_id).text)) := by
  constructor
  · intro h; simp [get_accounts_new, h]
  · intro h; simp [get_account_balances, h]

/-- C5 witness: concrete failing partner (accounts 500, balances 503). -/
theorem C5_witness :
    (get_accounts_new envFail cfgA gen0 0 10 0).1 =
      .error (.apiError "JoPACC API Error" 500 "Internal Server Error") ∧
    (get_account_balances envFail cfgA gen0 (.str "acc_1") "127.0.0.1" 0).1 =
      .error (.apiError "JoPACC Balance API Error" 503 "Service Unavailable") :=
  ⟨(C5_no_synthetic_data envFail cfgA gen0 0 10 0 0 (.str "acc_1") "127.0.0.1").1 (by decide),
   (C5_no_synthetic_data envFail cfgA gen0 0 10 0 0 (.str "acc_1") "127.0.0.1").2 (by decide)⟩

/-- C6: within one aggregation, any two distinct outbound calls carry
distinct `x-interactions-id` values, distinct `x-idempotency-key`
values, and no interaction id of one call equals the idempotency key of
another — each value is a fresh draw from the UUID source (assumed to
never repeat, `Function.Injective gen`). -/
theorem C6_fresh_per_call_identifiers (env : Env) (cfg : Config) (gen : Nat → String)
    (skip limit n : Nat) (hinj : Function.Injective gen)
    (i j : Nat) (ci cj : Call) (hij : i ≠ j)
    (hi : ((get_accounts_with_balances env cfg gen skip limit n).2.2)[i]? = some ci)
    (hj : ((get_accounts_with_balances env cfg gen skip limit n).2.2)[j]? = some cj) :
    slookup ci.headers "x-interactions-id" ≠ slookup cj.headers "x-interactions-id" ∧
    slookup ci.headers "x-idempotency-key" ≠ slookup cj.headers "x-idempotency-key" ∧
    slookup ci.headers "x-interactions-id" ≠ slookup cj.headers "x-idempotency-key" := by
  obtain ⟨hii, hi2⟩ := agg_calls_spec env cfg gen skip limit n i ci hi
  obtain ⟨hji, hj2⟩ := agg_calls_spec env cfg gen skip limit n j cj hj
  refine ⟨?_, ?_, ?_⟩
  · rw [hi2, hj2]
    intro h
    have := hinj (Option.some.inj h)
    omega
  · rw [hii, hji]
    intro h
    have := hinj (Option.some.inj h)
    omega
  · rw [hi2, hji]
    intro h
    have := hinj (Option.some.inj h)
    omega

/-- C6 witness: the accounts-list call and the first balance call of the
scenario-B aggregation share none of their interaction/idempotency
values. -/
theorem C6_witness :
    slookup c6c0.headers "x-interactions-id" ≠ slookup c6c1.headers "x-interactions-id" ∧
    slookup c6c0.headers "x-idempotency-key" ≠ slookup c6c1.headers "x-idempotency-key" ∧
    slookup c6c0.headers "x-interactions-id" ≠ slookup c6c1.headers "x-idempotency-key" :=
  C6_fresh_per_call_identifiers envB cfgA gen0 0 10 0 gen0_injective 0 1 c6c0 c6c1
    (by decide) (by with_unfolding_all rfl) (by with_unfolding_all rfl)

/-- C8: enrichment is balance-preserving — in every successful
aggregation each returned entry agrees with the corresponding listed
account on every key other than `detailed_balances` and
`balance_last_updated` (in particular on `balance`), so the sum of
`balance.current` over the returned accounts equals the sum over the raw
accounts-list response. -/
theorem C8_enrichment_balance_preserving (env : Env) (cfg : Config) (gen : Nat → String)
    (skip limit n : Nat) (h200 : env.accountsResp.status = 200) :
    ∃ out, (get_accounts_with_balances env cfg gen skip limit n).1 = .ok out ∧
      sumCurrents (out.pyGet "accounts").asArr =
        sumCurrents ((env.accountsResp.body.pyGetD "accounts" (.arr [])).asArr) ∧
      (∀ (i : Nat) (a' a₀ : JValue),
        ((out.pyGet "accounts").asArr)[i]? = some a' →
        ((env.accountsResp.body.pyGetD "accounts" (.arr [])).asArr)[i]? = some a₀ →
        ∀ key, key ≠ "detailed_balances" → key ≠ "balance_last_updated" →
          a'.pyGet key = a₀.pyGet key) := by
  have hget : ∀ x y z : JValue,
      (JValue.obj [("accounts", x), ("totalCount", y), ("hasMore", z)]).pyGet "accounts" = x :=
    fun _ _ _ => rfl
  refine ⟨_, aggSuccess_eq env cfg gen skip limit n h200, ?_, ?_⟩
  · rw [hget]
    exact sumCurrents_map_enrichStep env _
  · intro i a' a₀ hi hi0 key h1 h2
    rw [hget, show ∀ L : List JValue, (JValue.arr L).asArr = L from fun _ => rfl,
      List.getElem?_map, hi0, Option.map_some'] at hi
    rw [← Option.some.inj hi]
    exact pyGet_enrichStep_ne env a₀ key h1 h2

/-- C8 witness: scenario B (one failing balance call): the sum of
current balances of the three returned accounts equals the raw sum. -/
theorem C8_witness :
    ∃ out, (get_accounts_with_balances envB cfgA gen0 0 10 0).1 = .ok out ∧
      sumCurrents (out.pyGet "accounts").asArr =
        sumCurrents ((envB.accountsResp.body.pyGetD "accounts" (.arr [])).asArr) ∧
      (∀ (i : Nat) (a' a₀ : JValue),
        ((out.pyGet "accounts").asArr)[i]? = some a' →
        ((envB.accountsResp.body.pyGetD "accounts" (.arr [])).asArr)[i]? = some a₀ →
        ∀ key, key ≠ "detailed_balances" → key ≠ "balance_last_updated" →
          a'.pyGet key = a₀.pyGet key) :=
  C8_enrichment_balance_preserving envB cfgA gen0 0 10 0 rfl

/-- C2 counterexample: in scenario B (three listed accounts, the balance
call failing only for `acc_2`), the aggregation returns the raw `acc_2`
record completely unchanged: it has NO `detailed_balances` key (not an
empty one) and its key set is exactly the raw one, so it is not
annotated/flagged as "enrichment failed" in any way — contradicting the
claimed empty-`detailed_balances`-plus-flag shape. -/
theorem C2_counterexample :
    ((get_accounts_with_balances envB cfgA gen0 0 10 0).1.toOption.map
        (fun v => (v.pyGet "accounts").asArr)) =
      some [enrichAccount acctA1 balBodyA, acctA2, enrichAccount acctA3 balBodyA] ∧
    acctA2.hasKey "detailed_balances" = false ∧
    objKeys acctA2 = ["accountId", "currency", "accountType", "balance", "lastUpdated"] :=
  ⟨by with_unfolding_all rfl, rfl, rfl⟩

/-- C2 amended: if the accounts-list call succeeds and the balance call
fails for exactly the account at position `k` out of N, the aggregation
still returns all N accounts; every other account is returned enriched
with its detailed balances, and the failing account is returned exactly
as it appeared in the raw accounts-list response — with its
pre-enrichment (current/available) balance only, but with no
`detailed_balances` key and no "enrichment failed" annotation in the
result (the failure is only logged). -/
theorem C2_amended_partial_failure (env : Env) (cfg : Config) (gen : Nat → String)
    (skip limit n k : Nat)
    (h200 : env.accountsResp.status = 200)
    (htruthy : ∀ a ∈ (env.accountsResp.body.pyGetD "accounts" (.arr [])).asArr,
        (a.pyGet "accountId").truthy = true)
    (hfail : ∀ a, ((env.accountsResp.body.pyGetD "accounts" (.arr [])).asArr)[k]? = some a →
        (env.balanceResp (a.pyGet "accountId")).status ≠ 200)
    (hok : ∀ (i : Nat) a, i ≠ k →
        ((env.accountsResp.body.pyGetD "accounts" (.arr [])).asArr)[i]? = some a →
        (env.balanceResp (a.pyGet "accountId")).status = 200) :
    ∃ out, (get_accounts_with_balances env cfg gen skip limit n).1 = .ok out ∧
      (out.pyGet "accounts").asArr.length =
        ((env.accountsResp.body.pyGetD "accounts" (.arr [])).asArr).length ∧
      ((out.pyGet "accounts").asArr)[k]? =
        ((env.accountsResp.body.pyGetD "accounts" (.arr [])).asArr)[k]? ∧
      (∀ (i : Nat) a, i ≠ k →
        ((env.accountsResp.body.pyGetD "accounts" (.arr [])).asArr)[i]? = some a →
        ((out.pyGet "accounts").asArr)[i]? =
          some (enrichAccount a (env.balanceResp (a.pyGet "accountId")).body)) := by
  have hget : ∀ x y z : JValue,
      (JValue.obj [("accounts", x), ("totalCount", y), ("hasMore", z)]).pyGet "accounts" = x :=
    fun _ _ _ => rfl
  have harr : ∀ L : List JValue, (JValue.arr L).asArr = L := fun _ => rfl
  refine ⟨_, aggSuccess_eq env cfg gen skip limit n h200, ?_, ?_, ?_⟩
  · rw [hget, harr]
    simp
  · rw [hget, harr, List.getElem?_map]
    cases hk : ((env.accountsResp.body.pyGetD "accounts" (.arr [])).asArr)[k]? with
    | none => rfl
    | some a =>
      have hm : a ∈ (env.accountsResp.body.pyGetD "accounts" (.arr [])).asArr :=
        List.getElem?_mem hk
      simp only [Option.map_some']
      congr 1
      unfold enrichStep
      rw [if_pos (htruthy a hm), if_neg (hfail a hk)]
  · intro i a hik hia
    have hm : a ∈ (env.accountsResp.body.pyGetD "accounts" (.arr [])).asArr :=
      List.getElem?_mem hia
    rw [hget, harr, List.getElem?_map, hia, Option.map_some']
    congr 1
    unfold enrichStep
    rw [if_pos (htruthy a hm), if_pos (hok i a hik hia)]

/-- C2 witness: scenario B with `k = 1` (`acc_2` fails). -/
theorem C2_witness :
    ∃ out, (get_accounts_with_balances envB cfgA gen0 0 10 0).1 = .ok out ∧
      (out.pyGet "accounts").asArr.length =
        ((envB.accountsResp.body.pyGetD "accounts" (.arr [])).asArr).length ∧
      ((out.pyGet "accounts").asArr)[1]? =
        ((envB.accountsResp.body.pyGetD "accounts" (.arr [])).asArr)[1]? ∧
      (∀ (i : Nat) a, i ≠ 1 →
        ((envB.accountsResp.body.pyGetD "accounts" (.arr [])).asArr)[i]? = some a →
        ((out.pyGet "accounts").asArr)[i]? =
          some (enrichAccount a (envB.balanceResp (a.pyGet "accountId")).body)) :=
  C2_amended_partial_failure envB cfgA gen0 0 10 0 1 rfl
    (by intro a ha
        rw [show (envB.accountsResp.body.pyGetD "accounts" (.arr [])).asArr =
              [acctA1, acctA2, acctA3] from rfl] at ha
        fin_cases ha <;> rfl)
    (by intro a ha
        rw [show ((envB.accountsResp.body.pyGetD "accounts" (.arr [])).asArr)[1]? =
              some acctA2 from rfl] at ha
        cases ha
        intro h
        rw [show (envB.balanceResp (acctA2.pyGet "accountId")).status = 500 from rfl] at h
        exact absurd h (by decide))
    (by intro i a hik ha
        rw [show (envB.accountsResp.body.pyGetD "accounts" (.arr [])).asArr =
              [acctA1, acctA2, acctA3] from rfl] at ha
        rcases i with _ | _ | _ | i
        · cases ha; rfl
        · exact absurd rfl hik
        · cases ha; rfl
        · simp at ha)

/-- C3 counterexample: the claim says the `_for_account` results carry
`degraded=false` on verification success and `degraded=true` on failure,
but neither result ever contains a `degraded` field at all — for the
listed account `acc_1` the success result has no `degraded` key, and for
the unknown account `acc_404` the failure result has the `warning` field
but still no `degraded` key. -/
theorem C3_counterexample :
    ((get_fx_rates_for_account envB cfgA gen0 "acc_1" 0).1.toOption.map
        (fun v => (v.hasKey "degraded", v.hasKey "warning"))) = some (false, false) ∧
    ((get_fx_rates_for_account envB cfgA gen0 "acc_404" 0).1.toOption.map
        (fun v => (v.hasKey "degraded", v.pyGet "warning"))) =
      some (false, .str "Account verification failed, using default FX rates") :=
  ⟨by with_unfolding_all rfl, by with_unfolding_all rfl⟩

/-- C3 amended: for `get_fx_rates_for_account` and
`get_fx_quote_for_account` (with the FX endpoints themselves
responding), verification success yields a result with no `warning` key,
and verification failure (account not found or accounts-fetch error)
does not raise and yields the same result shape plus a `warning` field;
there is no `degraded` flag in either case — callers detect degraded
mode by the presence of the `warning` key. -/
theorem C3_amended_degraded_disclosure (env : Env) (cfg : Config) (gen : Nat → String)
    (account_id target : String) (amount : Option Rat) (n : Nat)
    (hfxr : env.fxRatesResp.status = 200)
    (hq200 : env.fxQuoteResp.status = 200)
    (d : JValue) (ds : List JValue)
    (hdata : env.fxQuoteResp.body.pyGet "data" = .arr (d :: ds))
    (hnum : ∀ fx ∈ d :: ds, ∃ q : Rat, fx.pyGetD "conversionValue" (.num 1) = .num q) :
    (∀ a, env.accountsResp.status = 200 →
      findAccount ((env.accountsResp.body.pyGetD "accounts" (.arr [])).asArr)
          account_id = some a →
      (∃ v, (get_fx_rates_for_account env cfg gen account_id n).1 = .ok v ∧
          v.hasKey "warning" = false ∧ v.hasKey "degraded" = false) ∧
      (∃ w, (get_fx_quote_for_account env cfg gen account_id target amount n).1 = .ok w ∧
          w.hasKey "warning" = false ∧ w.hasKey "degraded" = false)) ∧
    ((env.accountsResp.status ≠ 200 ∨
        findAccount ((env.accountsResp.body.pyGetD "accounts" (.arr [])).asArr)
          account_id = none) →
      (∃ v, (get_fx_rates_for_account env cfg gen account_id n).1 = .ok v ∧
          v.pyGet "warning" = .str "Account verification failed, using default FX rates" ∧
          v.hasKey "degraded" = false) ∧
      (∃ w, (get_fx_quote_for_account env cfg gen account_id target amount n).1 = .ok w ∧
          w.pyGet "warning" = .str "Account verification failed, using default FX quote" ∧
          w.hasKey "degraded" = false)) := by
  have hqq : ∃ (fxr tj conv : JValue),
      (get_fx_quote env cfg gen target amount (n + 2)).1 =
        .ok (.obj [("quoteId", .str (gen (n + 2 + 2))),
                   ("baseCurrency", fxr.pyGetD "sourceCurrency" (.str "JOD")),
                   ("targetCurrency", tj),
                   ("rate", fxr.pyGetD "conversionValue" (.num 1)),
                   ("amount", jAmount amount),
                   ("convertedAmount", conv),
                   ("validUntil", .str cfg.validUntilIso),
                   ("timestamp", .str cfg.nowIso)]) := by
    rw [fx_quote_eval env cfg gen target amount (n + 2) d ds hq200 hdata]
    cases hfind : (d :: ds).find? (fun fx => (fx.pyGet "targetCurrency").eqStr target) with
    | some fxRate =>
      obtain ⟨qr, hqr⟩ := hnum fxRate (List.mem_of_find?_eq_some hfind)
      obtain ⟨conv, hconv⟩ := convertedAmountOf_num_ok amount qr
      rw [← hqr] at hconv
      refine ⟨fxRate, .str target, conv, ?_⟩
      simp [quoteResultAndCount, hconv, quoteObj]
    | none =>
      obtain ⟨qr, hqr⟩ := hnum d (List.mem_cons_self d ds)
      obtain ⟨conv, hconv⟩ := convertedAmountOf_num_ok amount qr
      rw [← hqr] at hconv
      refine ⟨d, d.pyGetD "targetCurrency" (.str target), conv, ?_⟩
      simp [quoteResultAndCount, hconv, quoteObj]
  obtain ⟨fxr, tj, conv, hq⟩ := hqq
  constructor
  · intro a hacc hfind
    refine ⟨⟨_, rates_for_account_ok env cfg gen account_id n a hacc hfind hfxr, rfl, rfl⟩,
            ⟨_, quote_for_account_ok env cfg gen account_id target amount n a _ hacc hfind hq,
             rfl, rfl⟩⟩
  · intro hver
    refine ⟨⟨_, rates_for_account_degraded env cfg gen account_id n hver hfxr, rfl, rfl⟩,
            ⟨_, quote_for_account_degraded env cfg gen account_id target amount n _ hver hq,
             rfl, rfl⟩⟩

/-- C3 witness: scenario-B environment, success side at the listed
account `acc_1`. -/
theorem C3_witness :
    (∃ v, (get_fx_rates_for_account envB cfgA gen0 "acc_1" 0).1 = .ok v ∧
        v.hasKey "warning" = false ∧ v.hasKey "degraded" = false) ∧
    (∃ w, (get_fx_quote_for_account envB cfgA gen0 "acc_1" "USD" (some 100) 0).1 = .ok w ∧
        w.hasKey "warning" = false ∧ w.hasKey "degraded" = false) :=
  (C3_amended_degraded_disclosure envB cfgA gen0 "acc_1" "USD" (some 100) 0 rfl rfl
      (.obj [("sourceCurrency", .str "JOD"), ("targetCurrency", .str "USD"),
             ("conversionValue", .num (fl53 (709 / 1000)))]) [] rfl
      (by intro fx hfx
          rcases List.mem_cons.mp hfx with h | h
          · exact ⟨fl53 (709 / 1000), by rw [h]; rfl⟩
          · exact absurd h (List.not_mem_nil fx))).1
    acctA1 rfl rfl

/-- C7: FX quote selection — if some rate's `targetCurrency` equals the
requested one exactly, the first such rate is selected (its conversion
value becomes `rate`, its source currency `baseCurrency`); if no exact
match exists, the first returned rate is the fallback and the actually
chosen currency pair (`targetCurrency`/`baseCurrency` of that first
rate) is reported in the result; and `get_fx_quote_for_account` carries
the chosen quote verbatim under `quote_data`. -/
theorem C7_quote_selection (env : Env) (cfg : Config) (gen : Nat → String)
    (account_id target : String) (amount : Option Rat) (n : Nat)
    (h200 : env.fxQuoteResp.status = 200)
    (d : JValue) (ds : List JValue)
    (hdata : env.fxQuoteResp.body.pyGet "data" = .arr (d :: ds)) :
    (∀ fxRate conv,
      (d :: ds).find? (fun fx => (fx.pyGet "targetCurrency").eqStr target) = some fxRate →
      convertedAmountOf amount (fxRate.pyGetD "conversionValue" (.num 1)) = .ok conv →
      fxRate.pyGet "targetCurrency" = .str target ∧
      ∃ v, (get_fx_quote env cfg gen target amount n).1 = .ok v ∧
        v.pyGet "targetCurrency" = .str target ∧
        v.pyGet "rate" = fxRate.pyGetD "conversionValue" (.num 1) ∧
        v.pyGet "baseCurrency" = fxRate.pyGetD "sourceCurrency" (.str "JOD") ∧
        v.pyGet "convertedAmount" = conv) ∧
    (∀ conv,
      (d :: ds).find? (fun fx => (fx.pyGet "targetCurrency").eqStr target) = none →
      convertedAmountOf amount (d.pyGetD "conversionValue" (.num 1)) = .ok conv →
      ∃ v, (get_fx_quote env cfg gen target amount n).1 = .ok v ∧
        v.pyGet "targetCurrency" = d.pyGetD "targetCurrency" (.str target) ∧
        v.pyGet "rate" = d.pyGetD "conversionValue" (.num 1) ∧
        v.pyGet "baseCurrency" = d.pyGetD "sourceCurrency" (.str "JOD") ∧
        v.pyGet "convertedAmount" = conv) ∧
    (∀ a q, env.accountsResp.status = 200 →
      findAccount ((env.accountsResp.body.pyGetD "accounts" (.arr [])).asArr)
          account_id = some a →
      (get_fx_quote env cfg gen target amount (n + 2)).1 = .ok q →
      ∃ w, (get_fx_quote_for_account env cfg gen account_id target amount n).1 = .ok w ∧
        w.pyGet "quote_data" = q) := by
  refine ⟨?_, ?_, ?_⟩
  · intro fxRate conv hfind hconv
    constructor
    · have hp := List.find?_some hfind
      cases hv : fxRate.pyGet "targetCurrency" with
      | str t =>
        rw [hv] at hp
        simp [JValue.eqStr] at hp
        rw [hp]
      | null => rw [hv] at hp; simp [JValue.eqStr] at hp
      | bool b => rw [hv] at hp; simp [JValue.eqStr] at hp
      | num q => rw [hv] at hp; simp [JValue.eqStr] at hp
      | arr xs => rw [hv] at hp; simp [JValue.eqStr] at hp
      | obj fs => rw [hv] at hp; simp [JValue.eqStr] at hp
    · refine ⟨quoteObj cfg gen (n + 2) fxRate (.str target) amount conv, ?_, rfl, rfl, rfl, rfl⟩
      rw [fx_quote_eval env cfg gen target amount n d ds h200 hdata, hfind]
      simp [quoteResultAndCount, hconv]
  · intro conv hfind hconv
    refine ⟨quoteObj cfg gen (n + 2) d (d.pyGetD "targetCurrency" (.str target)) amount conv,
      ?_, rfl, rfl, rfl, rfl⟩
    rw [fx_quote_eval env cfg gen target amount n d ds h200 hdata, hfind]
    simp [quoteResultAndCount, hconv]
  · intro a q hacc hfind hq
    exact ⟨_, quote_for_account_ok env cfg gen account_id target amount n a q hacc hfind hq, rfl⟩

/-- C7 witness: scenario C, requesting USD with amount 100 — the USD
entry is selected exactly. -/
theorem C7_witness :
    usdRateC.pyGet "targetCurrency" = .str "USD" ∧
    ∃ v, (get_fx_quote envC cfgA gen0 "USD" (some 100) 0).1 = .ok v ∧
      v.pyGet "targetCurrency" = .str "USD" ∧
      v.pyGet "rate" = usdRateC.pyGetD "conversionValue" (.num 1) ∧
      v.pyGet "baseCurrency" = usdRateC.pyGetD "sourceCurrency" (.str "JOD") ∧
      v.pyGet "convertedAmount" = .num (floatMul 100 (fl53 (709 / 1000))) :=
  (C7_quote_selection envC cfgA gen0 "acc_1" "USD" (some 100) 0 rfl usdRateC [eurRateC]
      rfl).1 usdRateC (.num (floatMul 100 (fl53 (709 / 1000)))) rfl
    (by with_unfolding_all rfl)

/-- C9: the code evaluated at spec scenario C — rate table
`\x7bUSD: 0.709, EUR: 0.647\x7d`, `target_currency="USD"`, `amount=100`.
The quote's `rate` is the binary64 reading of `0.709` and its
`convertedAmount` is the binary64 product `4989143962196377/2^46`,
which is NOT the exact decimal `70.9` the claim requires — and is not
even the binary64 value nearest `70.9` (it is one ULP below,
`fl53 (709/10) = 4989143962196378/2^46`), so the quote observably
serializes as `70.89999999999999`: the float arithmetic loses the
precision the spec demands. -/
theorem C9_float_precision_bug :
    ((get_fx_quote envC cfgA gen0 "USD" (some 100) 0).1.toOption.map
        (fun v => (v.pyGet "rate", v.pyGet "convertedAmount"))) =
      some (.num (6386104271611363 / 9007199254740992),
            .num (4989143962196377 / 70368744177664)) ∧
    (4989143962196377 / 70368744177664 : Rat) ≠ 709 / 10 ∧
    (4989143962196377 / 70368744177664 : Rat) ≠ fl53 (709 / 10) :=
  ⟨by with_unfolding_all rfl, of_decide_eq_true (by with_unfolding_all rfl),
   of_decide_eq_true (by with_unfolding_all rfl)⟩

/-- C10: when `amount` is omitted/`None` or `0` (both falsy in Python),
`convertedAmount` is `None` — in the exact-match branch, in the
first-rate fallback branch, and (as `converted_amount`) in the result of
`get_fx_quote_for_account`. -/
theorem C10_falsy_amount_no_conversion (env : Env) (cfg : Config) (gen : Nat → String)
    (account_id target : String) (amount : Option Rat) (n : Nat)
    (hfalsy : amount = none ∨ amount = some 0)
    (h200 : env.fxQuoteResp.status = 200)
    (d : JValue) (ds : List JValue)
    (hdata : env.fxQuoteResp.body.pyGet "data" = .arr (d :: ds)) :
    (∀ fxRate,
      (d :: ds).find? (fun fx => (fx.pyGet "targetCurrency").eqStr target) = some fxRate →
      ∃ v, (get_fx_quote env cfg gen target amount n).1 = .ok v ∧
        v.pyGet "convertedAmount" = .null) ∧
    ((d :: ds).find? (fun fx => (fx.pyGet "targetCurrency").eqStr target) = none →
      ∃ v, (get_fx_quote env cfg gen target amount n).1 = .ok v ∧
        v.pyGet "convertedAmount" = .null) ∧
    (∀ a, env.accountsResp.status = 200 →
      findAccount ((env.accountsResp.body.pyGetD "accounts" (.arr [])).asArr)
          account_id = some a →
      ∃ w, (get_fx_quote_for_account env cfg gen account_id target amount n).1 = .ok w ∧
        w.pyGet "converted_amount" = .null) := by
  have hft : amountTruthy amount = false := by
    rcases hfalsy with h | h
    · rw [h]; rfl
    · rw [h]; simp [amountTruthy]
  have hconv : ∀ rateJ, convertedAmountOf amount rateJ = .ok .null := by
    intro rateJ
    simp [convertedAmountOf, hft]
  refine ⟨?_, ?_, ?_⟩
  · intro fxRate hfind
    refine ⟨quoteObj cfg gen (n + 2) fxRate (.str target) amount .null, ?_, rfl⟩
    rw [fx_quote_eval env cfg gen target amount n d ds h200 hdata, hfind]
    simp [quoteResultAndCount, hconv]
  · intro hfind
    refine ⟨quoteObj cfg gen (n + 2) d (d.pyGetD "targetCurrency" (.str target)) amount .null,
      ?_, rfl⟩
    rw [fx_quote_eval env cfg gen target amount n d ds h200 hdata, hfind]
    simp [quoteResultAndCount, hconv]
  · intro a hacc hfind
    cases hfq : (d :: ds).find? (fun fx => (fx.pyGet "targetCurrency").eqStr target) with
    | some fxRate =>
      have hq : (get_fx_quote env cfg gen target amount (n + 2)).1 =
          .ok (quoteObj cfg gen (n + 2 + 2) fxRate (.str target) amount .null) := by
        rw [fx_quote_eval env cfg gen target amount (n + 2) d ds h200 hdata, hfq]
        simp [quoteResultAndCount, hconv]
      exact ⟨_, quote_for_account_ok env cfg gen account_id target amount n a _ hacc hfind hq,
        rfl⟩
    | none =>
      have hq : (get_fx_quote env cfg gen target amount (n + 2)).1 =
          .ok (quoteObj cfg gen (n + 2 + 2) d (d.pyGetD "targetCurrency" (.str target))
                amount .null) := by
        rw [fx_quote_eval env cfg gen target amount (n + 2) d ds h200 hdata, hfq]
        simp [quoteResultAndCount, hconv]
      exact ⟨_, quote_for_account_ok env cfg gen account_id target amount n a _ hacc hfind hq,
        rfl⟩

/-- C10 witness: scenario C, requesting EUR with `amount = None` — the
exact-match branch returns a quote with `convertedAmount = None`. -/
theorem C10_witness :
    ∃ v, (get_fx_quote envC cfgA gen0 "EUR" none 0).1 = .ok v ∧
      v.pyGet "convertedAmount" = .null :=
  (C10_falsy_amount_no_conversion envC cfgA gen0 "acc_1" "EUR" none 0 (Or.inl rfl) rfl
      usdRateC [eurRateC] rfl).1 eurRateC (by with_unfolding_all rfl)

end FinJO
